import Mathlib

/-!
Verification development for the `twiprocess` tweet-processing library.

We shallowly embed the data model and the operations of the repository:
JSON records (`Json`), the lazy accessor layer of `tweet.py` (`Tweet`,
`User`, `ExtendedTweet`, `Place`), the geo-enrichment and extraction layer
of `processtweet.py` (`geo_info`, `add_region_info`, `extract_es`), and the
text functions of `atomic.py` / `preprocess.py` (`replace_mentions`,
`remove_emoji`, `preprocess`).

External collaborators (shapely centroids, the geopandas polygon table, the
local-geocode decoder, dateutil, the spaCy tokenizer, the `emoji` package's
regex, unidecode/unicodedata-based text transforms) are modelled as function
parameters, following the spec's collaborator interfaces; everything written
in the repository itself is translated directly from the source.
-/

/-- A JSON value, the shape of the raw records `tweet.py` operates on.
`null` also stands for the Python value `None`. -/
inductive Json where
  | null
  | bool (b : Bool)
  | num (n : Int)
  | str (s : String)
  | arr (xs : List Json)
  | obj (fs : List (String × Json))

mutual

/-- Structural equality of JSON values (models Python `==` on the records we
embed; the embedded records use a fixed key order and no duplicate keys, so
structural equality of objects agrees with Python dict equality there). -/
def Json.beq : Json → Json → Bool
  | .null, .null => true
  | .bool a, .bool b => a == b
  | .num a, .num b => a == b
  | .str a, .str b => a == b
  | .arr xs, .arr ys => Json.beqList xs ys
  | .obj fs, .obj gs => Json.beqObj fs gs
  | _, _ => false

/-- Elementwise equality of JSON arrays. -/
def Json.beqList : List Json → List Json → Bool
  | [], [] => true
  | x :: xs, y :: ys => Json.beq x y && Json.beqList xs ys
  | _, _ => false

/-- Entrywise equality of JSON objects. -/
def Json.beqObj : List (String × Json) → List (String × Json) → Bool
  | [], [] => true
  | (k, v) :: fs, (l, w) :: gs => k == l && Json.beq v w && Json.beqObj fs gs
  | _, _ => false

end

/-- Python truthiness of a value: `None`, `0`, `''`, `[]`, `{}` and `False`
are falsy, everything else is truthy. -/
def pyTruthy : Json → Bool
  | .null => false
  | .bool b => b
  | .num n => n != 0
  | .str s => !(s == "")
  | .arr xs => !xs.isEmpty
  | .obj fs => !fs.isEmpty

/-- First binding of a key in an association list (Python dicts have unique
keys, so this is dict lookup). -/
def lookup? : List (String × Json) → String → Option Json
  | [], _ => none
  | (k, v) :: rest, key => if k == key then some v else lookup? rest key

/-- Python `d[k] = v`: update the binding in place if the key exists
(preserving insertion order), otherwise append it. -/
def dictSet : List (String × Json) → String → Json → List (String × Json)
  | [], k, v => [(k, v)]
  | (k', v') :: rest, k, v =>
    if k' == k then (k, v) :: rest else (k', v') :: dictSet rest k v

/-- Python `d.pop(k)` (the removal part): drop the binding of `k`. -/
def dictRemove : List (String × Json) → String → List (String × Json)
  | [], _ => []
  | (k', v') :: rest, k =>
    if k' == k then rest else (k', v') :: dictRemove rest k

/-- Python `d.get(k)` with its implicit `None` default.  All embedded call
sites apply it to dict values (Python would raise `AttributeError` on a
non-dict receiver; no embedded path reaches that case). -/
def Json.get (j : Json) (k : String) : Json :=
  match j with
  | .obj fs => (lookup? fs k).getD .null
  | _ => .null

/-- Python `d.get(k, default)`.  Same receiver remark as `Json.get`. -/
def Json.getD (j : Json) (k : String) (d : Json) : Json :=
  match j with
  | .obj fs => (lookup? fs k).getD d
  | _ => d

/-- Python `k in d`. -/
def Json.hasKey (j : Json) (k : String) : Bool :=
  match j with
  | .obj fs => (lookup? fs k).isSome
  | _ => false

/-- A Python `str` or `None`, as produced by the geocoder / polygon table. -/
def optStrToJson : Option String → Json
  | some s => .str s
  | none => .null

/-! ## Collaborator interfaces (spec section 6)

The polygon/region table (geopandas `map_data`), the geocoder (`geo_code`),
shapely centroids and the standardization-function registry are external to
the core; they enter the embedding as data/function parameters. -/

/-- The country-polygon / region lookup table (`map_data`, a geopandas
dataframe).  `hasWithin lon lat` models `sum(within) > 0`; `withinCC` models
`map_data[within].iloc[0].ISO_A2`; `nearestCC` the distance-minimizing
country; `regionRow cc` models `map_data[map_data['ISO_A2'] == cc].iloc[0]`
as its `(REGION_WB, SUBREGION)` pair, `none` standing for the `IndexError`
raised when no row matches. -/
structure MapData where
  hasWithin : Json → Json → Bool
  withinCC : Json → Json → String
  nearestCC : Json → Json → String
  regionRow : Json → Option (String × String)

/-- One candidate produced by the geocoder (`local-geocode`):
`{'longitude': ..., 'latitude': ..., 'location_type': ..., 'country_code': ...}`.
The country code is a string (possibly `''` for e.g. disputed areas). -/
structure GeoLocation where
  longitude : Json
  latitude : Json
  location_type : Json
  country_code : String

/-- The geocoder (`geo_code`): `decode(user_location) -> list of candidates`
(the user's declared location may be `None`). -/
structure GeoCode where
  decode : Json → List GeoLocation

/-- The standardization-function registry: `getattr(standardize, name)`.
The named pipelines of `standardize.py` depend on external text collaborators
(html, unicodedata, bs4), so the registry is a parameter. -/
abbrev Registry := String → Json → Json

/-- External collaborators threaded through the extraction layer:
the registry, the shapely polygon centroid (`convert_to_polygon(ring)` float
conversion composed with `.centroid`, returning `(x, y)` as
`(longitude, latitude)`), and the dateutil/strftime timestamp conversion
used by `extract_es` (`parse(...).astimezone(utc).strftime(...)`). -/
structure Env where
  reg : Registry
  cent : List Json → Json × Json
  parseES : Json → Except String Json

/-! ## The accessor layer (`tweet.py`) -/

/-- The base tweet view.  Fields are the instance attributes set by
`Tweet.__init__` (its `__dict__`): the backing record `_status`, the legacy
keyword list, the resolved standardization function and the two geo
collaborator handles.  The standardization function is stored by name
(`none` = `standardize_func_default`, the identity): Python stores the
function object resolved from the module, so two views agree on this
attribute exactly when they were built from the same name. -/
structure Tweet where
  status : Json
  keywords : List Json
  stdName : Option String
  mapData : Option MapData
  geoCode : Option GeoCode

/-- `Tweet.__init__`: a falsy `status` argument (`None`, `{}`) is normalized
to `{}`, a falsy `keywords` argument is normalized to `[]`. -/
def Tweet.make (status : Json) (stdName : Option String) (keywords : List Json)
    (mapData : Option MapData) (geoCode : Option GeoCode) : Tweet :=
  { status := if pyTruthy status then status else .obj []
    keywords := if keywords.isEmpty then [] else keywords
    stdName := stdName
    mapData := mapData
    geoCode := geoCode }

/-- Applying the stored standardization function: `none` is
`standardize_func_default` (the identity from `tweet.py`), a name is looked
up in the registry. -/
def applyStd (reg : Registry) : Option String → Json → Json
  | none, j => j
  | some name, j => reg name j

/-- The user sub-view (`User`): `self._user` (as passed in — `Tweet.user`
supplies `{}` for an absent user) plus the back-reference `self.parent`. -/
structure User where
  user : Json
  parent : Tweet

/-- The extended-tweet sub-view (`ExtendedTweet`): `__init__` normalizes a
falsy status to `{}` and keeps the back-reference. -/
structure ExtendedTweet where
  status : Json
  parent : Tweet

/-- The place sub-view (`Place`), same normalization as `ExtendedTweet`. -/
structure Place where
  status : Json
  parent : Tweet

def Tweet.project (t : Tweet) : Json := t.status.get "project"

def Tweet.matching_keywords (t : Tweet) : Json :=
  t.status.getD "matching_keywords" (.arr [])

def Tweet.id (t : Tweet) : Json := t.status.get "id_str"

def Tweet.created_at (t : Tweet) : Json := t.status.get "created_at"

def Tweet.user (t : Tweet) : User := ⟨t.status.getD "user" (.obj []), t⟩

def Tweet.lang (t : Tweet) : Json := t.status.get "lang"

/-- `Tweet.coordinates`: `self._status.get('coordinates', {})`, then
`coordinates.get('coordinates') if coordinates else None`. -/
def Tweet.coordinates (t : Tweet) : Json :=
  let c := t.status.getD "coordinates" (.obj [])
  if pyTruthy c then c.get "coordinates" else .null

def Tweet.is_retweet (t : Tweet) : Bool := t.status.hasKey "retweeted_status"

/-- `Tweet.retweeted_status`: `type(self)(self._status.get('retweeted_status'))`
— a fresh view with all configuration arguments at their defaults. -/
def Tweet.retweeted_status (t : Tweet) : Tweet :=
  Tweet.make (t.status.get "retweeted_status") none [] none none

def Tweet.has_quote (t : Tweet) : Bool :=
  t.status.hasKey "quoted_status" && !t.is_retweet

def Tweet.quoted_status (t : Tweet) : Tweet :=
  Tweet.make (t.status.get "quoted_status") none [] none none

def Tweet.is_reply (t : Tweet) : Bool :=
  !(Json.beq (t.status.get "in_reply_to_status_id_str") .null)

def Tweet.replied_status_id (t : Tweet) : Json :=
  t.status.get "in_reply_to_status_id_str"

def Tweet.replied_user_id (t : Tweet) : Json :=
  t.status.get "in_reply_to_user_id_str"

/-- `Tweet.retweet_or_tweet` (the value computed by the property body;
the `lru_cache` wrapper around it is modelled separately by `lruAccess`). -/
def Tweet.retweet_or_tweet (t : Tweet) : Tweet :=
  if t.is_retweet then t.retweeted_status else t

def Tweet.extended_tweet (t : Tweet) : ExtendedTweet :=
  ⟨let s := t.status.get "extended_tweet"
   if pyTruthy s then s else .obj [], t⟩

def Tweet.place (t : Tweet) : Place :=
  ⟨let s := t.status.get "place"
   if pyTruthy s then s else .obj [], t⟩

/-- `Tweet.hashtags`: `[h['text'] for h in status.get('entities', {}).get('hashtags', [])]`;
the comprehension raises if an element lacks the `'text'` key or the field
is not a list of dicts. -/
def Tweet.hashtags (t : Tweet) : Except String (List Json) :=
  match (t.status.getD "entities" (.obj [])).getD "hashtags" (.arr []) with
  | .arr hs => hs.mapM (fun h =>
      match h with
      | .obj fs =>
        match lookup? fs "text" with
        | some v => .ok v
        | none => .error "KeyError: 'text'"
      | _ => .error "TypeError: hashtag entry is not a dict")
  | _ => .error "TypeError: hashtags is not a list"

def Tweet.user_mentions (t : Tweet) : Json :=
  (t.status.getD "entities" (.obj [])).getD "user_mentions" (.arr [])

def User.id (u : User) : Json := u.user.get "id_str"

def User.name (u : User) : Json := u.user.get "name"

def User.screen_name (u : User) : Json := u.user.get "screen_name"

def User.location (u : User) : Json := u.user.get "location"

/-- `User.description`: `self.parent.standardize_func(self._user.get('description'))`. -/
def User.description (reg : Registry) (u : User) : Json :=
  applyStd reg u.parent.stdName (u.user.get "description")

def ExtendedTweet.full_text (e : ExtendedTweet) : Json :=
  e.status.get "full_text"

def ExtendedTweet.media (e : ExtendedTweet) : Json :=
  (e.status.getD "extended_entities" (.obj [])).get "media"

/-- `Place.coordinates`: a non-dict `bounding_box` value is logged and
degraded to `{}`, otherwise `bounding_box.get('coordinates')`. -/
def Place.coordinates (p : Place) : Json :=
  let bb := p.status.getD "bounding_box" (.obj [])
  match bb with
  | .obj _ => bb.get "coordinates"
  | _ => .obj []

def Place.country_code (p : Place) : Json := p.status.get "country_code"

def Place.place_type (p : Place) : Json := p.status.get "place_type"

/-- `Tweet.text` (the value computed by the property body; the `lru_cache`
wrapper is modelled separately): prefer the extended tweet's `full_text`,
else the record's own `full_text`, else `text` — all on `retweet_or_tweet`
and all passed through the stored standardization function. -/
def Tweet.text (reg : Registry) (t : Tweet) : Json :=
  let rt := t.retweet_or_tweet
  if !(Json.beq rt.extended_tweet.status (.obj [])) then
    applyStd reg t.stdName rt.extended_tweet.full_text
  else if rt.status.hasKey "full_text" then
    applyStd reg t.stdName (rt.status.get "full_text")
  else
    applyStd reg t.stdName (rt.status.get "text")

/-- `Tweet.media` (property body): prefer the extended tweet's media over
the top-level `extended_entities.media`, both on `retweet_or_tweet`. -/
def Tweet.media (t : Tweet) : Json :=
  let rt := t.retweet_or_tweet
  if pyTruthy rt.extended_tweet.media then rt.extended_tweet.media
  else (rt.status.getD "extended_entities" (.obj [])).get "media"

/-! ## Geo enrichment and extraction (`processtweet.py`) -/

/-- `get_country_code_by_coords` (inner function of `geo_info`): with a
polygon table, a containment match wins, otherwise the nearest country is
used (with a warning); without a table the result is `None`. -/
def get_country_code_by_coords (md : Option MapData) (lon lat : Json) :
    Option String :=
  match md with
  | some m =>
    if m.hasWithin lon lat then some (m.withinCC lon lat)
    else some (m.nearestCC lon lat)
  | none => none

/-- `ProcessTweet.geo_info`.  The result is the Python dict `geo_obj`
(initialized to `{'longitude': None, 'latitude': None}`; the other keys of
its docstring are commented out in the source and only appear when a branch
assigns them).  Errors model the exceptions Python would raise on records
whose geo fields have an unexpected shape. -/
def geo_info (env : Env) (t : Tweet) : Except String (List (String × Json)) :=
  let geo0 : List (String × Json) := [("longitude", .null), ("latitude", .null)]
  if pyTruthy t.coordinates then
    -- geo_obj['longitude'], geo_obj['latitude'] = self.coordinates[0:2]
    match t.coordinates with
    | .arr (c0 :: c1 :: _) =>
      let g := dictSet (dictSet geo0 "longitude" c0) "latitude" c1
      let cc := t.place.country_code
      -- `if country_code and country_code == '':` — resolve from coordinates
      let cc := if pyTruthy cc && Json.beq cc (.str "") then
          optStrToJson (get_country_code_by_coords t.mapData c0 c1)
        else cc
      .ok (dictSet (dictSet (dictSet g "country_code" cc)
        "location_type" t.place.place_type) "geo_type" (.str "tweet.coordinates"))
    | _ => .error "ValueError: cannot unpack coordinates[0:2]"
  else if pyTruthy t.place.coordinates then
    -- polygon = convert_to_polygon(self.place.coordinates[0])
    match t.place.coordinates with
    | .arr (.arr ring :: _) =>
      let lonlat := env.cent ring
      let g := dictSet (dictSet geo0 "longitude" lonlat.1) "latitude" lonlat.2
      let cc := t.place.country_code
      -- same (unsatisfiable) guard as in the coordinates branch
      let cc := if pyTruthy cc && Json.beq cc (.str "") then
          optStrToJson (get_country_code_by_coords t.mapData lonlat.1 lonlat.2)
        else cc
      .ok (dictSet (dictSet (dictSet g "country_code" cc)
        "location_type" t.place.place_type) "geo_type" (.str "tweet.place"))
    | _ => .error "TypeError: place bounding box is not a list of rings"
  else
    match t.geoCode with
    | none => .ok geo0
    | some gc =>
      match gc.decode t.user.location with
      | [] => .ok geo0
      | loc :: _ =>
        let g := dictSet (dictSet (dictSet geo0 "longitude" loc.longitude)
          "latitude" loc.latitude) "location_type" loc.location_type
        -- `if country_code == '':` — here the guard does fire
        let cc : Option String :=
          if loc.country_code == "" then
            get_country_code_by_coords t.mapData loc.longitude loc.latitude
          else some loc.country_code
        .ok (dictSet (dictSet g "country_code" (optStrToJson cc))
          "geo_type" (.str "user.location"))

/-- `ProcessTweet.add_region_info`: indexes `geo_obj['country_code']`
(raising `KeyError` when the key is absent), then adds region and subregion
from the polygon table, an `IndexError` on an unknown country code being
caught and logged. -/
def add_region_info (t : Tweet) (geo : List (String × Json)) :
    Except String (List (String × Json)) :=
  match lookup? geo "country_code" with
  | none => .error "KeyError: 'country_code'"
  | some cc =>
    match t.mapData with
    | some m =>
      if pyTruthy cc then
        match m.regionRow cc with
        | some rr =>
          .ok (dictSet (dictSet geo "region" (.str rr.1)) "subregion" (.str rr.2))
        | none => .ok geo
      else .ok geo
    | none => .ok geo

/-- The geo part of `ProcessTweet.extract` with `extract_geo=True`:
`self.add_region_info(self.geo_info)`. -/
def extract_geo_part (env : Env) (t : Tweet) :
    Except String (List (String × Json)) :=
  match geo_info env t with
  | .ok g => add_region_info t g
  | .error e => .error e

/-- The tail of `ProcessTweet.extract_es` after the geo block: the filtered
`user` dict and the `es_obj` dict with `None`/`False` values dropped.
`geoOpt` is the final `geo_obj` (`none` models the Python assignment
`geo_obj = None`). -/
def extract_es_rest (env : Env) (t : Tweet)
    (geoOpt : Option (List (String × Json))) :
    Except String (List (String × Json)) :=
  let user0 : List (String × Json) :=
    [("id", t.user.id), ("name", t.user.name),
     ("screen_name", t.user.screen_name), ("location", t.user.location),
     ("description", User.description env.reg t.user)]
  let user := user0.filter (fun kv => !(Json.beq kv.2 .null))
  match env.parseES t.created_at with
  | .error e => .error e
  | .ok dateStr =>
    match t.hashtags with
    | .error e => .error e
    | .ok hs =>
      let es : List (String × Json) :=
        [("created_at", dateStr),
         ("id", t.id),
         ("text", Tweet.text env.reg t),
         ("in_reply_to_user_id", t.replied_user_id),
         ("retweeted_user_id", t.retweeted_status.user.id),
         ("quoted_user_id", t.quoted_status.user.id),
         ("user", .obj user),
         ("geo_info", match geoOpt with | some g => .obj g | none => .null),
         ("hashtags", if hs.isEmpty then .null else .arr hs),
         ("has_quote", .bool t.has_quote),
         ("is_retweet", .bool t.is_retweet),
         ("lang", t.lang),
         ("project", t.project),
         ("matching_keywords",
          if Json.beq t.matching_keywords (.arr []) then .null
          else t.matching_keywords)]
      .ok (es.filter (fun kv =>
        !(Json.beq kv.2 .null) && !(Json.beq kv.2 (.bool false))))

/-- `ProcessTweet.extract_es`.  The geo block runs first: `geo_obj` is the
geo info when `extract_geo` is set and `{}` otherwise, and
`geo_obj['latitude']` is indexed unconditionally (`KeyError` when absent);
`geo_obj['longitude']` is only indexed when the latitude is truthy
(Python's `and` short-circuits).  When both are truthy they are re-nested
under `'coordinates'`; otherwise `geo_obj` becomes `None`. -/
def extract_es (env : Env) (t : Tweet) (extract_geo : Bool) :
    Except String (List (String × Json)) :=
  match (if extract_geo then geo_info env t else .ok []) with
  | .error e => .error e
  | .ok geo =>
    match lookup? geo "latitude" with
    | none => .error "KeyError: 'latitude'"
    | some lat =>
      if pyTruthy lat then
        match lookup? geo "longitude" with
        | none => .error "KeyError: 'longitude'"
        | some lon =>
          if pyTruthy lon then
            extract_es_rest env t (some (dictSet
              (dictRemove (dictRemove geo "latitude") "longitude")
              "coordinates" (.obj [("lat", lat), ("lon", lon)])))
          else extract_es_rest env t none
      else extract_es_rest env t none

/-! ## Atomic text functions (`atomic.py`) -/

/-- A regex word character (`\w`), on the ASCII range the embedded inputs
use: letters, digits and the underscore. -/
def isWordChar (c : Char) : Bool := c.isAlphanum || c == '_'

/-- Length of the maximal word-character run at the head of the input. -/
def wordRun : List Char → Nat
  | [] => 0
  | c :: cs => if isWordChar c then wordRun cs + 1 else 0

/-- The scan performed by
`re.sub(r'(?:(?<=^)|(?<=[^@\w]))@(\w{1,15})\b', ' filler ', text)`:
leftmost non-overlapping matches, each replaced by the space-padded filler,
scanning resuming after the matched handle in the original string.
`blocked` records whether the previous original character was `'@'` or a
word character (in which case the lookbehind fails); `skip` is the number of
already-matched handle characters still to be skipped.  A handle matches
exactly when its maximal word run has length 1..15 (the trailing `\b`
forbids any longer run, greedy backtracking included). -/
def mentionScan (filler : List Char) : Nat → Bool → List Char → List Char
  | _, _, [] => []
  | skip + 1, blocked, _ :: cs => mentionScan filler skip blocked cs
  | 0, blocked, c :: cs =>
    if c == '@' && !blocked && decide (1 ≤ wordRun cs) &&
        decide (wordRun cs ≤ 15) then
      ' ' :: (filler ++ ' ' :: mentionScan filler (wordRun cs) true cs)
    else
      c :: mentionScan filler 0 (c == '@' || isWordChar c) cs

/-- `atomic.replace_mentions(text, filler)`: Twitter handles (1–15 word
characters, not preceded by `'@'` or a word character) are replaced by
`' ' + filler + ' '`. -/
def replace_mentions (text : String) (filler : String) : String :=
  String.mk (mentionScan filler.data 0 false text.data)

/-- `atomic.remove_emoji`: the source computes
`emoji.get_emoji_regexp().sub(u' ', text)` (the external emoji-regex
substitution, taken here as the parameter `emojiSub`) but never assigns the
result, and returns `text` unchanged. -/
def remove_emoji (emojiSub : String → String) (text : String) : String :=
  let _ := emojiSub text
  text

/-! ## The configurable preprocessing entry point (`preprocess.py`) -/

/-- A spaCy token as consumed by `preprocess` (spec section 6 collaborator
interface): surface text, the `is_alpha`/`is_punct`/`is_stop` flags and the
lemma (`token.lemma_`). -/
structure Token where
  text : String
  is_alpha : Bool
  is_punct : Bool
  is_stop : Bool
  lemma_ : String

/-- The keyword arguments of `preprocess` with their defaults' types. -/
structure PreprocessArgs where
  min_num_tokens : Nat
  min_num_chars : Nat
  lower_case : Bool
  asciify : Bool
  remove_punctuation : Bool
  standardize_punctuation : Bool
  asciify_emoji : Bool
  remove_emoji : Bool
  replace_url_with : Option String
  replace_user_with : Option String
  replace_email_with : Option String
  lemmatize : Bool
  remove_stop_words : Bool

/-- The external text collaborators `preprocess` dispatches to: the
unidecode/unicodedata/emoji-based transforms of `atomic.py`, Python's
`str.lower`, and the optional spaCy pipeline (`atomic.nlp` plus
`atomic.tokenize`; `none` models an unavailable tokenizer — in this source
`atomic.nlp` is in fact always `None`, its loading being commented out). -/
structure TextEnv where
  asciifyF : String → String
  removePunctF : String → String
  stdPunctF : String → String
  removeEmojiF : String → String
  asciifyEmojiF : String → String
  lowerF : String → String
  nlp : Option (String → List Token)

/-- Python `' '.join(text.split())`: collapse whitespace runs and trim. -/
def collapseWS (s : String) : String :=
  String.intercalate " " ((s.split Char.isWhitespace).filter (fun x => x ≠ ""))

/-- The token count of the `min_num_tokens` filter: alphabetic,
non-punctuation tokens whose stripped text is not one of the configured
user/url fillers (`t.text.strip() not in [replace_user_with,
replace_url_with]`; a string never equals `None`). -/
def numTokens (a : PreprocessArgs) (tokens : List Token) : Nat :=
  (tokens.filter (fun t =>
    t.is_alpha && !t.is_punct &&
    !(a.replace_user_with == some t.text.trim ||
      a.replace_url_with == some t.text.trim))).length

/-- The transform prefix of `preprocess`, up to and including the whitespace
collapse: asciify, punctuation removal/standardization, emoji
removal/asciification, then filler substitution via `str.replace`. -/
def preStage (env : TextEnv) (a : PreprocessArgs) (input : String) : String :=
  let t := if a.asciify then env.asciifyF input else input
  let t := if a.remove_punctuation then env.removePunctF t else t
  let t := if a.standardize_punctuation then env.stdPunctF t else t
  let t := if a.remove_emoji then env.removeEmojiF t else t
  let t := if a.asciify_emoji then env.asciifyEmojiF t else t
  let t := match a.replace_url_with with
    | some r => t.replace "<url>" r
    | none => t
  let t := match a.replace_user_with with
    | some r => t.replace "@user" r
    | none => t
  let t := match a.replace_email_with with
    | some r => t.replace "@email" r
    | none => t
  collapseWS t

/-- The stop-word / lemmatization rewrite applied to the tokenized text
(the body of the spaCy block after the threshold check). -/
def tokenRewrite (a : PreprocessArgs) (tokens : List Token) (text : String) :
    String :=
  let tokens := if a.remove_stop_words then
      tokens.filter (fun t => !t.is_stop)
    else tokens
  let text := if a.remove_stop_words && !a.lemmatize then
      String.intercalate " " (tokens.map Token.text)
    else text
  if a.lemmatize then String.intercalate " " (tokens.map Token.lemma_)
  else text

/-- The tail of `preprocess`: lower-casing, then the `min_num_chars`
cutoff returning the `''` sentinel. -/
def preFinish (env : TextEnv) (a : PreprocessArgs) (text : String) : String :=
  let text := if a.lower_case then env.lowerF text else text
  if 0 < a.min_num_chars ∧ text.length < a.min_num_chars then "" else text

/-- `preprocess.preprocess`: the spaCy block runs only when one of
`min_num_tokens`/`lemmatize`/`remove_stop_words` is set *and* `atomic.nlp`
is available, and short-circuits to the `''` sentinel when the token count
is under `min_num_tokens`. -/
def preprocess (env : TextEnv) (a : PreprocessArgs) (input : String) : String :=
  let text := preStage env a input
  match env.nlp with
  | some tok =>
    if 0 < a.min_num_tokens || a.lemmatize || a.remove_stop_words then
      let tokens := tok text
      if 0 < a.min_num_tokens ∧ numTokens a tokens < a.min_num_tokens then ""
      else preFinish env a (tokenRewrite a tokens text)
    else preFinish env a text
  | none => preFinish env a text

/-! ## The `lru_cache(maxsize=1)` wrapper (`functools`, as used on the
`text` / `media` / `retweet_or_tweet` properties) -/

/-- `Tweet.__eq__` (`self.__dict__ == other.__dict__`), as a boolean, for
views whose collaborator handles are `None` (the only configuration the
caching claims exercise): the backing records, keyword lists and the
identity of the standardization function are compared, and the collaborator
handles compare as `None == None`.  (Comparing two views that both carry a
dataframe handle is not modelled — Python would compare dataframes there.) -/
def tweetBeq (a b : Tweet) : Bool :=
  Json.beq a.status b.status && Json.beqList a.keywords b.keywords &&
  a.stdName == b.stdName && a.mapData.isNone && b.mapData.isNone &&
  a.geoCode.isNone && b.geoCode.isNone

/-- One access through a `functools.lru_cache(maxsize=1)`-wrapped method:
a single class-level slot holding `(hash, key, value)` for the most recent
call.  The key is the `self` argument; `hashv` is Python's hash of the key
for *this* call — `Tweet.__hash__` hashes a freshly constructed
`dict_values` object, whose identity-based hash is allocation-dependent,
so it enters as an oracle input.  A hit requires equal hashes and
`__eq__`-equal keys; a miss recomputes and replaces the slot.  Returns
`(value, recomputed?, new slot)`. -/
def lruAccess {α : Type} (compute : Tweet → α) (hashv : Nat) (self : Tweet)
    (slot : Option (Nat × Tweet × α)) : α × Bool × Option (Nat × Tweet × α) :=
  match slot with
  | some (h, k, v) =>
    if h == hashv && tweetBeq k self then (v, false, slot)
    else (compute self, true, some (hashv, self, compute self))
  | none => (compute self, true, some (hashv, self, compute self))

/-! ## Spec-side characterization of `preprocess` (claim C9)

`tokensCutB` / `charsCutB` spell out, in the claim's words, when the `''`
sentinel is returned, and `preprocessNoCut` is the pipeline with the two
threshold short-circuits removed; C9 compares `preprocess` against them. -/

/-- The claim's token-threshold condition: tokenization runs (one of
`min_num_tokens`/`lemmatize`/`remove_stop_words` set and a tokenizer
available) and the filtered token count is under `min_num_tokens`. -/
def tokensCutB (env : TextEnv) (a : PreprocessArgs) (input : String) : Bool :=
  match env.nlp with
  | some tok =>
    (decide (0 < a.min_num_tokens) || a.lemmatize || a.remove_stop_words) &&
    decide (0 < a.min_num_tokens) &&
    decide (numTokens a (tok (preStage env a input)) < a.min_num_tokens)
  | none => false

/-- The processed text before the character cutoff (transforms, optional
token rewrite, lower-casing), with no threshold short-circuit. -/
def processedText (env : TextEnv) (a : PreprocessArgs) (input : String) :
    String :=
  let text := preStage env a input
  let text := match env.nlp with
    | some tok =>
      if 0 < a.min_num_tokens || a.lemmatize || a.remove_stop_words then
        tokenRewrite a (tok text) text
      else text
    | none => text
  if a.lower_case then env.lowerF text else text

/-- The claim's character-threshold condition: the final text's length is
under a positive `min_num_chars`. -/
def charsCutB (env : TextEnv) (a : PreprocessArgs) (input : String) : Bool :=
  decide (0 < a.min_num_chars) &&
  decide ((processedText env a input).length < a.min_num_chars)

/-- The pipeline with both threshold short-circuits removed. -/
def preprocessNoCut (env : TextEnv) (a : PreprocessArgs) (input : String) :
    String :=
  processedText env a input

/-! ## Concrete instances used by the claim theorems -/

/-- The view over an absent record: `Tweet(None)` with default arguments. -/
def emptyTweet : Tweet := Tweet.make .null none [] none none

/-- A default-configured view over a distinct, non-empty record. -/
def tweetB : Tweet :=
  Tweet.make (.obj [("id_str", .str "1")]) none [] none none

/-- A trivial collaborator environment (identity registry, constant
centroid, identity timestamp conversion) for concrete evaluations. -/
def env0 : Env := ⟨fun _ j => j, fun _ => (.null, .null), fun j => .ok j⟩

/-- A geocoder that yields zero candidates for every declared location. -/
def gcEmpty : GeoCode := ⟨fun _ => []⟩

/-- The empty view configured with the zero-candidate geocoder. -/
def tweetGcEmpty : Tweet := Tweet.make (.obj []) none [] none (some gcEmpty)

/-- A polygon table for which every point lies within Switzerland. -/
def mapCH : MapData :=
  ⟨fun _ _ => true, fun _ _ => "CH", fun _ _ => "CH",
   fun _ => some ("Europe & Central Asia", "Western Europe")⟩

/-- A record carrying both direct coordinates and a place, with the place's
country code present and non-empty. -/
def tweet3 : Tweet :=
  Tweet.make (.obj
    [("coordinates", .obj [("coordinates", .arr [.num 10, .num 20])]),
     ("place", .obj [("country_code", .str "CH"), ("place_type", .str "city"),
       ("bounding_box", .obj [("coordinates",
         .arr [.arr [.arr [.num 1, .num 2], .arr [.num 3, .num 4]]])])])])
    none [] none none

/-- A record with direct coordinates and a place `{}` without a country
code, configured with the `mapCH` polygon table. -/
def tweet4 : Tweet :=
  Tweet.make (.obj
    [("coordinates", .obj [("coordinates", .arr [.num 10, .num 20])]),
     ("place", .obj [])])
    none [] (some mapCH) none

/-- The `emoji` package's regex substitution restricted to the one emoji the
counterexample uses: every `😀` becomes a space. -/
def emojiSub0 : String → String :=
  fun s => String.mk (s.data.map (fun c => if c == '😀' then ' ' else c))

/-! ## Helper lemmas -/

theorem get_null_of_not_hasKey (j : Json) (k : String)
    (h : j.hasKey k = false) : j.get k = .null := by
  cases j <;> simp only [Json.hasKey, Json.get] at *
  cases hl : lookup? _ k <;> simp [hl] at h ⊢

/-! ## Claim theorems -/

/-- C1: constructing a view over an absent (`None`) or empty (`{}`) record
succeeds (the constructor is total) and the two agree; every accessor then
returns its documented empty value — `None` for the scalar fields `id`,
`created_at`, `text`, `lang`, `coordinates`, `[]` for `hashtags`, and empty
sub-views for `user`, `extended_tweet`, `place`, `retweeted_status`,
`quoted_status` — so the chained access
`retweeted_status.extended_tweet.media` evaluates without error to `None`. -/
theorem tweetview_empty_defaults (reg : Registry) :
    Tweet.make (.obj []) none [] none none = emptyTweet ∧
    emptyTweet.id = .null ∧
    emptyTweet.created_at = .null ∧
    Tweet.text reg emptyTweet = .null ∧
    emptyTweet.lang = .null ∧
    emptyTweet.coordinates = .null ∧
    emptyTweet.hashtags = .ok [] ∧
    emptyTweet.user = ⟨.obj [], emptyTweet⟩ ∧
    emptyTweet.extended_tweet = ⟨.obj [], emptyTweet⟩ ∧
    emptyTweet.place = ⟨.obj [], emptyTweet⟩ ∧
    emptyTweet.retweeted_status = emptyTweet ∧
    emptyTweet.quoted_status = emptyTweet ∧
    emptyTweet.retweeted_status.extended_tweet.media = .null :=
  ⟨rfl, rfl, rfl, rfl, rfl, rfl, rfl, rfl, rfl, rfl, rfl, rfl, rfl⟩

/-- C2 (code bug): on a record with no coordinates and no place bounding
box, and either no geocoder or a geocoder yielding zero candidates,
`geo_info` returns the initial `geo_obj` — longitude and latitude `None`
and, contrary to its own docstring, *no* `'country_code'` key (its
initialization is commented out in the source) — so the geo part of
`extract` with geo extraction enabled, `add_region_info(geo_info)`, raises
`KeyError: 'country_code'` instead of completing. -/
theorem geo_empty_add_region_keyerror :
    geo_info env0 emptyTweet = .ok [("longitude", .null), ("latitude", .null)] ∧
    lookup? [("longitude", Json.null), ("latitude", Json.null)] "country_code"
      = none ∧
    extract_geo_part env0 emptyTweet = .error "KeyError: 'country_code'" ∧
    geo_info env0 tweetGcEmpty
      = .ok [("longitude", .null), ("latitude", .null)] ∧
    extract_geo_part env0 tweetGcEmpty = .error "KeyError: 'country_code'" :=
  ⟨rfl, rfl, rfl, rfl, rfl⟩

/-- C4 (code bug): the guard `if country_code and country_code == '':` in
the coordinates and place-centroid branches of `geo_info` is unsatisfiable
(a truthy string is never `''`), so the place's country code is always used
as-is and reverse geocoding never runs there: on a record with coordinates
`[10, 20]` and a place without a country code, configured with a polygon
table that resolves every point to `'CH'`, the resulting country code is
`None` even though `get_country_code_by_coords` would return `'CH'`. -/
theorem geo_country_code_guard_never_fires :
    (∀ cc : Json, (pyTruthy cc && Json.beq cc (.str "")) = false) ∧
    (∃ d, geo_info env0 tweet4 = .ok d ∧
      lookup? d "country_code" = some .null) ∧
    get_country_code_by_coords tweet4.mapData (.num 10) (.num 20)
      = some "CH" := by
  refine ⟨?_, ⟨_, rfl, rfl⟩, rfl⟩
  intro cc
  cases cc <;> simp only [pyTruthy, Json.beq, Bool.false_and, Bool.and_false]
  rename_i s
  cases h : s == "" <;> simp [h]

/-- C5 (code bug): `remove_emoji` computes the emoji-regex substitution but
discards its result, returning the input unchanged for every input and
every substitution; in particular on `"hi😀"` the output equals the input
even though the substitution (which maps `😀` to a space) would change it. -/
theorem remove_emoji_returns_input :
    (∀ (f : String → String) (text : String), remove_emoji f text = text) ∧
    remove_emoji emojiSub0 "hi😀" = "hi😀" ∧
    emojiSub0 "hi😀" = "hi " ∧
    ("hi😀" : String) ≠ "hi " :=
  ⟨fun _ _ => rfl, rfl, rfl, by decide⟩

/-- C7: on a default-configured view whose backing record has no
`retweeted_status` key, `retweeted_status` equals the view freshly
constructed over `None`, and `retweet_or_tweet` equals the view itself —
equality being the derived-state (`__dict__`) equality of the embedding. -/
theorem retweet_non_retweet_view_equiv (s : Json)
    (h : (Tweet.make s none [] none none).is_retweet = false) :
    (Tweet.make s none [] none none).retweeted_status = emptyTweet ∧
    (Tweet.make s none [] none none).retweet_or_tweet
      = Tweet.make s none [] none none := by
  constructor
  · unfold Tweet.retweeted_status
    rw [get_null_of_not_hasKey _ _ h]
    rfl
  · unfold Tweet.retweet_or_tweet
    rw [h]
    simp

/-- Witness for C7 at a concrete non-retweet record. -/
theorem retweet_non_retweet_view_equiv_witness :
    (Tweet.make (.obj [("id_str", .str "1")]) none [] none none).retweeted_status
      = emptyTweet ∧
    (Tweet.make (.obj [("id_str", .str "1")]) none [] none none).retweet_or_tweet
      = Tweet.make (.obj [("id_str", .str "1")]) none [] none none :=
  retweet_non_retweet_view_equiv (.obj [("id_str", .str "1")]) rfl

/-- C10: `extract_es` with geo extraction disabled (its default) raises
`KeyError: 'latitude'` for every record and every collaborator environment:
the geo object is then the empty dict, which is indexed unconditionally. -/
theorem extract_es_keyerror_without_geo (env : Env) (t : Tweet) :
    extract_es env t false = .error "KeyError: 'latitude'" := rfl

/-- C3: on a record with direct coordinates (and whatever place data),
`geo_info` takes longitude and latitude from the coordinates field, tags
`geo_type` with `'tweet.coordinates'` (never the place provenance), and the
geocoder is consulted only when both coordinates and place bounding box are
absent: whenever either is present the result does not depend on the
configured geocoder. -/
theorem geo_coordinates_precedence (env : Env) (t : Tweet) (c0 c1 : Json)
    (rest : List Json) (hc : t.coordinates = .arr (c0 :: c1 :: rest)) :
    (∃ d, geo_info env t = .ok d ∧
      lookup? d "longitude" = some c0 ∧
      lookup? d "latitude" = some c1 ∧
      lookup? d "geo_type" = some (.str "tweet.coordinates")) ∧
    (∀ (t' : Tweet) (g1 g2 : Option GeoCode),
      pyTruthy t'.coordinates = true ∨ pyTruthy t'.place.coordinates = true →
      geo_info env { t' with geoCode := g1 }
        = geo_info env { t' with geoCode := g2 }) := by
  constructor
  · have htr : pyTruthy t.coordinates = true := by rw [hc]; rfl
    unfold geo_info
    rw [htr, hc]
    simp only [if_true]
    exact ⟨_, rfl, rfl, rfl, rfl⟩
  · intro t' g1 g2 h
    have e1 : ∀ g : Option GeoCode,
        ({ t' with geoCode := g } : Tweet).coordinates = t'.coordinates :=
      fun _ => rfl
    have e2 : ∀ g : Option GeoCode,
        ({ t' with geoCode := g } : Tweet).place.coordinates
          = t'.place.coordinates :=
      fun _ => rfl
    by_cases hco : pyTruthy t'.coordinates = true
    · have h1 : pyTruthy ({ t' with geoCode := g1 } : Tweet).coordinates
          = true := by rw [e1]; exact hco
      have h2 : pyTruthy ({ t' with geoCode := g2 } : Tweet).coordinates
          = true := by rw [e1]; exact hco
      unfold geo_info
      rw [h1, h2]
      exact congrArg (fun c =>
        match c with
        | Json.arr (a :: b :: _) =>
          Except.ok (dictSet (dictSet (dictSet (dictSet (dictSet
            [("longitude", Json.null), ("latitude", Json.null)]
            "longitude" a) "latitude" b) "country_code"
            (if (pyTruthy t'.place.country_code &&
                Json.beq t'.place.country_code (Json.str "")) = true then
              optStrToJson (get_country_code_by_coords t'.mapData a b)
            else t'.place.country_code))
            "location_type" t'.place.place_type)
            "geo_type" (Json.str "tweet.coordinates"))
        | _ => Except.error "ValueError: cannot unpack coordinates[0:2]")
        (rfl : t'.coordinates = t'.coordinates)
    · have hco' : pyTruthy t'.coordinates = false := by
        cases hx : pyTruthy t'.coordinates
        · rfl
        · exact absurd hx hco
      have hpl : pyTruthy t'.place.coordinates = true := by
        rcases h with h | h
        · exact absurd h hco
        · exact h
      have h1 : pyTruthy ({ t' with geoCode := g1 } : Tweet).coordinates
          = false := by rw [e1]; exact hco'
      have h2 : pyTruthy ({ t' with geoCode := g2 } : Tweet).coordinates
          = false := by rw [e1]; exact hco'
      have hp1 : pyTruthy ({ t' with geoCode := g1 } : Tweet).place.coordinates
          = true := by rw [e2]; exact hpl
      have hp2 : pyTruthy ({ t' with geoCode := g2 } : Tweet).place.coordinates
          = true := by rw [e2]; exact hpl
      unfold geo_info
      rw [h1, h2, hp1, hp2]
      simp only [Bool.false_eq_true, if_false, if_true]
      exact congrArg (fun c =>
        match c with
        | Json.arr (Json.arr ring :: _) =>
          Except.ok (dictSet (dictSet (dictSet (dictSet (dictSet
            [("longitude", Json.null), ("latitude", Json.null)]
            "longitude" (env.cent ring).1) "latitude" (env.cent ring).2)
            "country_code"
            (if (pyTruthy t'.place.country_code &&
                Json.beq t'.place.country_code (Json.str "")) = true then
              optStrToJson (get_country_code_by_coords t'.mapData
                (env.cent ring).1 (env.cent ring).2)
            else t'.place.country_code))
            "location_type" t'.place.place_type)
            "geo_type" (Json.str "tweet.place"))
        | _ => Except.error "TypeError: place bounding box is not a list of rings")
        (rfl : t'.place.coordinates = t'.place.coordinates)

/-- Witness for C3 at a record carrying both coordinates and a place. -/
theorem geo_coordinates_precedence_witness :
    (∃ d, geo_info env0 tweet3 = .ok d ∧
      lookup? d "longitude" = some (.num 10) ∧
      lookup? d "latitude" = some (.num 20) ∧
      lookup? d "geo_type" = some (.str "tweet.coordinates")) ∧
    (∀ (t' : Tweet) (g1 g2 : Option GeoCode),
      pyTruthy t'.coordinates = true ∨ pyTruthy t'.place.coordinates = true →
      geo_info env0 { t' with geoCode := g1 }
        = geo_info env0 { t' with geoCode := g2 }) :=
  geo_coordinates_precedence env0 tweet3 (.num 10) (.num 20) [] rfl

/-- C6: `replace_mentions` with the default filler replaces every handle of
1–15 word characters standing at the start of the string or after a
character that is neither `'@'` nor a word character by `' @user '`
(the scanner step at a boundary emits the space-padded filler and skips the
handle), leaves a handle immediately preceded by a word character
unreplaced (the preceding word character blocks the lookbehind and the `@`
is emitted verbatim), and in particular maps the documented example to its
documented result. -/
theorem replace_mentions_behavior :
    replace_mentions "Hi @Mark! Nice meeting you here!@Jen, what about@you?"
      "@user"
      = "Hi  @user ! Nice meeting you here! @user , what about@you?" ∧
    (∀ (filler cs : List Char),
      1 ≤ wordRun cs → wordRun cs ≤ 15 →
      mentionScan filler 0 false ('@' :: cs)
        = ' ' :: (filler ++ ' ' :: mentionScan filler (wordRun cs) true cs)) ∧
    (∀ (filler : List Char) (c : Char) (blocked : Bool) (cs : List Char),
      isWordChar c = true →
      mentionScan filler 0 blocked (c :: '@' :: cs)
        = c :: '@' :: mentionScan filler 0 true cs) := by
  refine ⟨by decide, ?_, ?_⟩
  · intro filler cs hlo hhi
    simp only [mentionScan, hlo, hhi, decide_eq_true_eq, Bool.not_false,
      Bool.and_true, decide_True]
    rfl
  · intro filler c blocked cs hw
    have hc : (c == '@') = false := by
      cases hq : c == '@'
      · rfl
      · have hce : c = '@' := beq_iff_eq.mp hq
        rw [hce] at hw
        exact absurd hw (by decide)
    simp only [mentionScan, hc, hw, Bool.false_and, Bool.and_false,
      Bool.false_or, Bool.or_true, Bool.not_true, if_false, Bool.false_eq_true]
    rfl

/-- Witness for C6: the scanner steps at a boundary handle and at a
word-preceded handle, instantiated at concrete inputs. -/
theorem replace_mentions_behavior_witness :
    mentionScan "@user".data 0 false ('@' :: "Jen!".data)
      = ' ' :: ("@user".data ++ ' ' ::
          mentionScan "@user".data (wordRun "Jen!".data) true "Jen!".data) ∧
    mentionScan "@user".data 0 false ('t' :: '@' :: "you?".data)
      = 't' :: '@' :: mentionScan "@user".data 0 true "you?".data :=
  ⟨replace_mentions_behavior.2.1 "@user".data "Jen!".data
    (by decide) (by decide),
   replace_mentions_behavior.2.2 "@user".data 't' false "you?".data
    (by decide)⟩

/-- C8 (code bug): the `lru_cache(maxsize=1)` on the `text` property is a
single class-level slot, not a per-instance cache: whatever the
(allocation-dependent) hashes are, accessing `text` on view `A`, then on a
differing view `B`, then on `A` again recomputes every time — `B`'s access
evicts `A`'s entry and `A`'s second access misses (`__eq__` of the stored
key and `A` fails), so the value is *not* computed at most once per
instance.  Only the extensional part of the claim holds: the recomputed
value equals the first one. -/
theorem lru_cache_cross_instance_eviction (reg : Registry) (h1 h2 h3 : Nat) :
    (lruAccess (Tweet.text reg) h1 emptyTweet none).2.1 = true ∧
    (lruAccess (Tweet.text reg) h2 tweetB
      (lruAccess (Tweet.text reg) h1 emptyTweet none).2.2).2.1 = true ∧
    (lruAccess (Tweet.text reg) h3 emptyTweet
      (lruAccess (Tweet.text reg) h2 tweetB
        (lruAccess (Tweet.text reg) h1 emptyTweet none).2.2).2.2).2.1
      = true ∧
    (lruAccess (Tweet.text reg) h3 emptyTweet
      (lruAccess (Tweet.text reg) h2 tweetB
        (lruAccess (Tweet.text reg) h1 emptyTweet none).2.2).2.2).1
      = (lruAccess (Tweet.text reg) h1 emptyTweet none).1 := by
  have hb1 : tweetBeq emptyTweet tweetB = false := rfl
  have hb2 : tweetBeq tweetB emptyTweet = false := rfl
  have e1 : lruAccess (Tweet.text reg) h1 emptyTweet none
      = (Tweet.text reg emptyTweet, true,
         some (h1, emptyTweet, Tweet.text reg emptyTweet)) := rfl
  have e2 : lruAccess (Tweet.text reg) h2 tweetB
      (some (h1, emptyTweet, Tweet.text reg emptyTweet))
      = (Tweet.text reg tweetB, true,
         some (h2, tweetB, Tweet.text reg tweetB)) := by
    simp only [lruAccess, hb1, Bool.and_false, Bool.false_eq_true, if_false]
  have e3 : lruAccess (Tweet.text reg) h3 emptyTweet
      (some (h2, tweetB, Tweet.text reg tweetB))
      = (Tweet.text reg emptyTweet, true,
         some (h3, emptyTweet, Tweet.text reg emptyTweet)) := by
    simp only [lruAccess, hb2, Bool.and_false, Bool.false_eq_true, if_false]
  rw [e1]
  rw [show (Tweet.text reg emptyTweet, true,
    some (h1, emptyTweet, Tweet.text reg emptyTweet)).2.2
    = some (h1, emptyTweet, Tweet.text reg emptyTweet) from rfl, e2]
  rw [show (Tweet.text reg tweetB, true,
    some (h2, tweetB, Tweet.text reg tweetB)).2.2
    = some (h2, tweetB, Tweet.text reg tweetB) from rfl, e3]
  exact ⟨rfl, rfl, rfl, rfl⟩

/-- C9: `preprocess` returns the `''` sentinel, rather than raising, exactly
when a threshold is not met — when tokenization runs (a tokenizer is
available and one of `min_num_tokens`/`lemmatize`/`remove_stop_words` is
set) and the count of alphabetic, non-punctuation, non-filler tokens is
under `min_num_tokens`, or when the final text's length is under
`min_num_chars` — and otherwise returns the processed text. -/
theorem preprocess_sentinel_characterization (env : TextEnv)
    (a : PreprocessArgs) (input : String) :
    preprocess env a input =
      if tokensCutB env a input = true then ""
      else if charsCutB env a input = true then ""
      else preprocessNoCut env a input := by
  unfold preprocess tokensCutB charsCutB preprocessNoCut processedText preFinish
  cases hn : env.nlp with
  | none =>
    simp only [Bool.false_eq_true, if_false, Bool.and_eq_true,
      decide_eq_true_eq]
  | some tok =>
    cases hg : (decide (0 < a.min_num_tokens) || a.lemmatize ||
        a.remove_stop_words) with
    | false =>
      simp only [Bool.false_and, Bool.false_eq_true, if_false,
        Bool.and_eq_true, decide_eq_true_eq]
    | true =>
      simp only [Bool.true_and, Bool.and_eq_true, decide_eq_true_eq]
      split_ifs <;> rfl
